import Mathlib

/-!
Shallow embedding of the corpus-loading / prompt-assembly pipeline and the
chat route of `src/app.py` (a small Flask retrieval-augmented chat backend),
together with theorems checking the specification's claims about it.

Modelling conventions:
* JSON values as parsed by Python's `json` module are the inductive `Json`
  below.  Numeric literals are modelled as integers (the corpus and all
  claims use only integers); object fields keep insertion order, as Python
  dicts do, and are key-unique, as `json.load` produces.
* The filesystem is deterministic: a directory is a list of `JFile`s, each a
  file name plus either its parsed JSON content (`Except.ok`) or a read- or
  parse-failure message (`Except.error`).  The second read that
  `load_and_parse_json` / `load_survey_json` perform on a path that
  `load_context` already read successfully therefore yields the same parsed
  value, so those two functions are modelled as functions of the parsed
  content.
* Python's `sorted` on the glob result is a stable sort by the full path
  string (code-point lexicographic, which is exactly Lean's `String` order);
  it is modelled with Mathlib's `List.insertionSort`, which is also stable.
* `print` logging has no observable effect on the returned values and is not
  modelled.
-/

namespace CafeRag

/-- A JSON value as produced by Python's `json.load`.  Numbers are modelled
as integers; object field lists are in insertion order and key-unique. -/
inductive Json where
  | null
  | bool (b : Bool)
  | num (n : Int)
  | str (s : String)
  | arr (elems : List Json)
  | obj (fields : List (String × Json))

/-- Python dict lookup (`d[k]` / `d.get(k)`) on the ordered field list of an
object.  Field lists are key-unique, so first match is the match. -/
def jlookup : List (String × Json) → String → Option Json
  | [], _ => none
  | (k', v) :: rest, k => if k' = k then some v else jlookup rest k

/-- CPython `repr` of a string (single-quoted, minimal escaping; models the
common case of printable characters, which is all the corpus contains). -/
def pyStrRepr (s : String) : String :=
  "'" ++ String.join (s.data.map (fun c =>
    if c = '\\' then "\\\\"
    else if c = '\'' then "\\'"
    else if c = '\n' then "\\n"
    else if c = '\r' then "\\r"
    else if c = '\t' then "\\t"
    else String.mk [c])) ++ "'"

mutual

/-- CPython `repr` of a JSON value (what `str` falls back to for lists and
dicts interpolated into an f-string). -/
def pyRepr : Json → String
  | .null => "None"
  | .bool true => "True"
  | .bool false => "False"
  | .num n => toString n
  | .str s => pyStrRepr s
  | .arr xs => "[" ++ String.intercalate ", " (pyReprElems xs) ++ "]"
  | .obj kvs => "\x7b" ++ String.intercalate ", " (pyReprFields kvs) ++ "\x7d"

def pyReprElems : List Json → List String
  | [] => []
  | x :: xs => pyRepr x :: pyReprElems xs

def pyReprFields : List (String × Json) → List String
  | [] => []
  | (k, v) :: kvs => (pyStrRepr k ++ ": " ++ pyRepr v) :: pyReprFields kvs

end

/-- CPython `str` of a JSON value, as used by f-string interpolation:
strings unquoted, everything else as `repr`. -/
def pyStr : Json → String
  | .str s => s
  | v => pyRepr v

/-- `n` spaces, for `json.dumps` indentation. -/
def spaces (n : Nat) : String :=
  String.mk (List.replicate n ' ')

/-- Four lowercase hex digits, for `\uXXXX` escapes. -/
def hex4 (n : Nat) : String :=
  String.mk [Nat.digitChar (n / 4096 % 16), Nat.digitChar (n / 256 % 16),
    Nat.digitChar (n / 16 % 16), Nat.digitChar (n % 16)]

/-- One character of `json.dumps` output with the default `ensure_ascii`:
everything outside printable ASCII is escaped. -/
def jsonEscapeChar (c : Char) : String :=
  if c = '"' then "\\\""
  else if c = '\\' then "\\\\"
  else if c = '\n' then "\\n"
  else if c = '\t' then "\\t"
  else if c = '\r' then "\\r"
  else if c.toNat = 8 then "\\b"
  else if c.toNat = 12 then "\\f"
  else if c.toNat < 32 then "\\u" ++ hex4 c.toNat
  else if c.toNat < 127 then String.mk [c]
  else if c.toNat < 65536 then "\\u" ++ hex4 c.toNat
  else
    let n := c.toNat - 65536
    "\\u" ++ hex4 (55296 + n / 1024) ++ "\\u" ++ hex4 (56320 + n % 1024)

/-- `json.dumps` escaping of a string body. -/
def jsonEscape (s : String) : String :=
  String.join (s.data.map jsonEscapeChar)

mutual

/-- `json.dumps(v, indent=2)` at nesting level `lvl` (item separator `,`,
key separator `: `, as CPython uses when `indent` is given). -/
def dumpsV : Nat → Json → String
  | _, .null => "null"
  | _, .bool true => "true"
  | _, .bool false => "false"
  | _, .num n => toString n
  | _, .str s => "\"" ++ jsonEscape s ++ "\""
  | _, .arr [] => "[]"
  | lvl, .arr (x :: xs) =>
      "[\n" ++ String.intercalate ",\n" (dumpsElems (lvl + 1) (x :: xs)) ++
        "\n" ++ spaces (2 * lvl) ++ "]"
  | _, .obj [] => "\x7b\x7d"
  | lvl, .obj (kv :: kvs) =>
      "\x7b\n" ++ String.intercalate ",\n" (dumpsFields (lvl + 1) (kv :: kvs)) ++
        "\n" ++ spaces (2 * lvl) ++ "\x7d"

def dumpsElems : Nat → List Json → List String
  | _, [] => []
  | lvl, x :: xs => (spaces (2 * lvl) ++ dumpsV lvl x) :: dumpsElems lvl xs

def dumpsFields : Nat → List (String × Json) → List String
  | _, [] => []
  | lvl, (k, v) :: kvs =>
      (spaces (2 * lvl) ++ "\"" ++ jsonEscape k ++ "\": " ++ dumpsV lvl v) ::
        dumpsFields lvl kvs

end

/-- `json.dumps(v, indent=2)`. -/
def jsonDumpsIndent2 (v : Json) : String :=
  dumpsV 0 v

/-- The characters after the last `'/'` of the list. -/
def lastSegment (l : List Char) : List Char :=
  (l.foldl (fun acc c => if c = '/' then [] else c :: acc) []).reverse

/-- `os.path.basename`: the part of the path after the last slash. -/
def basename (p : String) : String :=
  String.mk (lastSegment p.data)

/-- `s` ends with `suffix`. -/
def strEndsWith (s suffix : String) : Bool :=
  suffix.data.reverse.isPrefixOf s.data.reverse

/-- The glob pattern `*.json`: a name matches exactly when it ends with the
extension and — Python glob's hidden-file rule, since the pattern does not
begin with a dot — the name does not begin with a dot. -/
def globMatchJson (name : String) : Bool :=
  match name.data with
  | [] => false
  | c :: _ => c != '.' && strEndsWith name ".json"

/-- Python `str.upper` (the corpus keys are ASCII). -/
def strToUpper (s : String) : String :=
  String.mk (s.data.map Char.toUpper)

/-- `sub` occurs as a contiguous run of `l`. -/
def charsInfix (sub : List Char) : List Char → Bool
  | [] => sub.isEmpty
  | c :: rest => sub.isPrefixOf (c :: rest) || charsInfix sub rest

/-- Python's substring containment test `sub in s`. -/
def containsSub (s sub : String) : Bool :=
  charsInfix sub.data s.data

-- ### `load_and_parse_json` (src/app.py lines 38-54)

/-- One iteration of the entry loop of `load_and_parse_json`: a dict entry
contributes `f"\n{speaker}:\nQ: {question}\nA: {answer}"` with `entry.get`
defaults `"Unknown"` / `""` / `""`; any other entry is skipped. -/
def interviewPart (entry : Json) : Option String :=
  match entry with
  | .obj kvs =>
      let speaker := match jlookup kvs "speaker" with
        | some v => pyStr v
        | none => "Unknown"
      let question := match jlookup kvs "question" with
        | some v => pyStr v
        | none => ""
      let answer := match jlookup kvs "answer" with
        | some v => pyStr v
        | none => ""
      some ("\n" ++ speaker ++ ":\nQ: " ++ question ++ "\nA: " ++ answer)
  | _ => none

/-- `load_and_parse_json` from src/app.py, on the parsed list content of the
file at `path` (the re-read it performs is deterministic, see the module
comment; `load_context` only calls it when the root parsed as a list). -/
def load_and_parse_json (path : String) (entries : List Json) : String :=
  String.intercalate "\n"
    (("=== Interview File: " ++ basename path ++ " ===") ::
      entries.filterMap interviewPart)

-- ### `load_survey_json` (src/app.py lines 56-76)

/-- The parts appended for the sections of `survey_summary`: for each
section, `f"\n[{section.upper()}]"` and `json.dumps(values, indent=2)`. -/
def surveySummaryParts : List (String × Json) → List String
  | [] => []
  | (k, v) :: rest =>
      ("\n[" ++ strToUpper k ++ "]") :: jsonDumpsIndent2 v :: surveySummaryParts rest

/-- The parts appended for `free_text_insights`: for each question,
`f"\nQ: {question}\nSummary: {summary}"`. -/
def freeTextParts : List (String × Json) → List String
  | [] => []
  | (q, summary) :: rest =>
      ("\nQ: " ++ q ++ "\nSummary: " ++ pyStr summary) :: freeTextParts rest

/-- `load_survey_json` from src/app.py on the parsed object content of the
file at `path` (`load_context` only calls it on an object root).  A
`survey_summary` or `free_text_insights` value that is not itself an object
makes the Python `.items()` call raise; the handler catches the exception
and returns `""`. -/
def load_survey_json (path : String) (fields : List (String × Json)) : String :=
  let part1 : Option (List String) :=
    match jlookup fields "survey_summary" with
    | none => some []
    | some (.obj secs) => some ("\n--- SURVEY SUMMARY ---" :: surveySummaryParts secs)
    | some _ => none
  let part2 : Option (List String) :=
    match jlookup fields "free_text_insights" with
    | none => some []
    | some (.obj qs) => some ("\n--- FREE TEXT INSIGHTS ---" :: freeTextParts qs)
    | some _ => none
  match part1, part2 with
  | some p1, some p2 =>
      String.intercalate "\n"
        (("=== Survey Analytics File: " ++ basename path ++ " ===") :: (p1 ++ p2))
  | _, _ => ""

-- ### `load_context` (src/app.py lines 78-109)

/-- A file of the corpus directory: its name and either its parsed JSON
content or the message of the exception raised when reading or parsing it. -/
structure JFile where
  name : String
  content : Except String Json

/-- `os.path.join(directory, name)` (the directory is taken without a
trailing slash). -/
def fullPath (dir name : String) : String :=
  dir ++ "/" ++ name

/-- Code-point lexicographic `≤` on character lists: exactly the order
Python's `sorted` uses on strings. -/
def charsLe : List Char → List Char → Bool
  | [], _ => true
  | _ :: _, [] => false
  | a :: as, b :: bs =>
      if a.toNat < b.toNat then true
      else if b.toNat < a.toNat then false
      else charsLe as bs

/-- Python's `s <= t` on strings (code-point lexicographic). -/
def pathLe (p q : String) : Bool :=
  charsLe p.data q.data

theorem charsLe_total : ∀ as bs : List Char, charsLe as bs = true ∨ charsLe bs as = true
  | [], _ => Or.inl rfl
  | _ :: _, [] => Or.inr rfl
  | a :: as, b :: bs => by
      rw [charsLe, charsLe]
      by_cases h1 : a.toNat < b.toNat
      · left
        rw [if_pos h1]
      · by_cases h2 : b.toNat < a.toNat
        · right
          rw [if_pos h2]
        · rw [if_neg h1, if_neg h2, if_neg h2, if_neg h1]
          exact charsLe_total as bs

theorem charsLe_trans : ∀ as bs cs : List Char,
    charsLe as bs = true → charsLe bs cs = true → charsLe as cs = true
  | [], _, _, _, _ => rfl
  | _ :: _, [], _, h1, _ => by rw [charsLe] at h1; exact absurd h1 Bool.false_ne_true
  | _ :: _, _ :: _, [], _, h2 => by rw [charsLe] at h2; exact absurd h2 Bool.false_ne_true
  | a :: as, b :: bs, c :: cs, h1, h2 => by
      rw [charsLe] at h1 h2 ⊢
      split at h1
      next hab =>
        split at h2
        next hbc => rw [if_pos (Nat.lt_trans hab hbc)]
        next hbc =>
          split at h2
          next hcb => exact absurd h2 Bool.false_ne_true
          next hcb => rw [if_pos (by omega : a.toNat < c.toNat)]
      next hab =>
        split at h1
        next hba => exact absurd h1 Bool.false_ne_true
        next hba =>
          split at h2
          next hbc => rw [if_pos (by omega : a.toNat < c.toNat)]
          next hbc =>
            split at h2
            next hcb => exact absurd h2 Bool.false_ne_true
            next hcb =>
              rw [if_neg (by omega : ¬ a.toNat < c.toNat),
                  if_neg (by omega : ¬ c.toNat < a.toNat)]
              exact charsLe_trans as bs cs h1 h2

/-- The path order Python's `sorted` uses on the glob result. -/
def fileLe (dir : String) (a b : JFile) : Prop :=
  pathLe (fullPath dir a.name) (fullPath dir b.name) = true

instance (dir : String) : DecidableRel (fileLe dir) := fun a b =>
  inferInstanceAs (Decidable (pathLe (fullPath dir a.name) (fullPath dir b.name) = true))

instance (dir : String) : IsTrans JFile (fileLe dir) :=
  ⟨fun _ _ _ h h' => charsLe_trans _ _ _ h h'⟩

instance (dir : String) : IsTotal JFile (fileLe dir) :=
  ⟨fun _ _ => charsLe_total _ _⟩

/-- `sorted(glob.glob(os.path.join(directory, "*.json")))`: the files whose
name matches `*.json`, sorted by full path. -/
def json_paths (dir : String) (files : List JFile) : List JFile :=
  List.insertionSort (fileLe dir) (files.filter (fun f => globMatchJson f.name))

/-- The skip test of the loop: `"package" in path or "lock" in path`
(substring test on the full path). -/
def skipFile (path : String) : Bool :=
  containsSub path "package" || containsSub path "lock"

/-- One iteration of the loop of `load_context`: `none` when the file is
skipped (excluded path, or read/parse failure, or a root that is neither a
list nor an object with a survey key), otherwise the rendered block that is
appended to `parts`. -/
def processPath (dir : String) (f : JFile) : Option String :=
  let path := fullPath dir f.name
  if skipFile path then none
  else
    match f.content with
    | .error _ => none
    | .ok data =>
      match data with
      | .arr entries => some (load_and_parse_json path entries)
      | .obj fields =>
          if (jlookup fields "survey_summary").isSome
              || (jlookup fields "free_text_insights").isSome then
            some (load_survey_json path fields)
          else none
      | _ => none

/-- `load_context` from src/app.py, with the corpus directory (`os.getcwd()`
in the source) and its files as explicit parameters. -/
def load_context (dir : String) (files : List JFile) : String :=
  String.intercalate "\n\n" ((json_paths dir files).filterMap (processPath dir))

-- ### the `/chat` route (src/app.py lines 140-169)

/-- Python truthiness of a JSON value (`if not user_query`). -/
def truthy : Json → Bool
  | .null => false
  | .bool b => b
  | .num n => n != 0
  | .str s => !(s = "")
  | .arr xs => !xs.isEmpty
  | .obj kvs => !kvs.isEmpty

/-- The Python type name of a JSON value, for the `AttributeError` message
raised by `.get` on a non-dict request body. -/
def pyTypeName : Json → String
  | .null => "NoneType"
  | .bool _ => "bool"
  | .num _ => "int"
  | .str _ => "str"
  | .arr _ => "list"
  | .obj _ => "dict"

/-- An HTTP response of the route: status code and the JSON object body
produced by `jsonify`. -/
structure HttpResponse where
  status : Nat
  body : List (String × Json)

/-- The `chat` route of src/app.py.  `client` is whether the Gemini client
initialized; `reqJson` is `request.json` (or the message of the exception it
raised on an unparsable body); `complete` is the external completion call
(`client.models.generate_content` with the fixed system instruction and
temperature, returning `response.text` or failing with a service error). -/
def chat (client : Bool) (reqJson : Except String Json)
    (complete : Json → Except String String) : HttpResponse :=
  if client = false then
    ⟨500, [("error", .str "Backend Configuration Error: Google API Key is missing or invalid on the server.")]⟩
  else
    match reqJson with
    | .error e => ⟨500, [("error", .str e)]⟩
    | .ok user_data =>
      match user_data with
      | .obj kvs =>
        let user_query := jlookup kvs "message"
        match user_query with
        | none => ⟨400, [("error", .str "No message provided")]⟩
        | some q =>
          if truthy q = false then ⟨400, [("error", .str "No message provided")]⟩
          else
            match complete q with
            | .ok text => ⟨200, [("response", .str text)]⟩
            | .error e => ⟨500, [("error", .str e)]⟩
      | other =>
          ⟨500, [("error", .str ("'" ++ pyTypeName other ++ "' object has no attribute 'get'"))]⟩

/-!
## Helper lemmas

Generic facts about `List.insertionSort` and `List.filterMap`: an element
the per-file step maps to `none` can be removed from the input of the
sort-then-render pipeline without changing the output.
-/

section SortHelpers

variable {α : Type} {β : Type} (r : α → α → Prop) [DecidableRel r]

theorem filterMap_orderedInsert_none (p : α → Option β) (x : α) (hx : p x = none) :
    ∀ l : List α, (List.orderedInsert r x l).filterMap p = l.filterMap p
  | [] => by simp [List.orderedInsert, hx]
  | b :: l => by
      rw [List.orderedInsert]
      split
      · simp [List.filterMap_cons, hx]
      · simp only [List.filterMap_cons]
        rw [filterMap_orderedInsert_none p x hx l]

theorem orderedInsert_middle [IsTrans α r] (y x : α) :
    ∀ s₁ s₂ : List α, List.Sorted r (s₁ ++ x :: s₂) →
      ∃ t₁ t₂, List.orderedInsert r y (s₁ ++ x :: s₂) = t₁ ++ x :: t₂ ∧
               List.orderedInsert r y (s₁ ++ s₂) = t₁ ++ t₂
  | [], s₂, hs => by
      simp only [List.nil_append]
      rw [List.orderedInsert]
      by_cases hyx : r y x
      · rw [if_pos hyx]
        refine ⟨[y], s₂, rfl, ?_⟩
        cases s₂ with
        | nil => simp [List.orderedInsert]
        | cons h t =>
            have hxh : r x h := List.rel_of_sorted_cons hs h (by simp)
            have hyh : r y h := IsTrans.trans y x h hyx hxh
            rw [List.orderedInsert_of_le r t hyh]
            rfl
      · rw [if_neg hyx]
        exact ⟨[], List.orderedInsert r y s₂, rfl, rfl⟩
  | b :: s₁, s₂, hs => by
      simp only [List.cons_append]
      rw [List.orderedInsert, List.orderedInsert]
      by_cases hyb : r y b
      · rw [if_pos hyb, if_pos hyb]
        exact ⟨y :: b :: s₁, s₂, rfl, rfl⟩
      · rw [if_neg hyb, if_neg hyb]
        obtain ⟨t₁, t₂, h1, h2⟩ :=
          orderedInsert_middle y x s₁ s₂ (List.Sorted.of_cons (by simpa using hs))
        exact ⟨b :: t₁, t₂, by rw [h1]; rfl, by rw [h2]; rfl⟩

theorem insertionSort_middle [IsTrans α r] [IsTotal α r] (x : α) :
    ∀ l₁ l₂ : List α,
      ∃ t₁ t₂, List.insertionSort r (l₁ ++ x :: l₂) = t₁ ++ x :: t₂ ∧
               List.insertionSort r (l₁ ++ l₂) = t₁ ++ t₂
  | [], l₂ => by
      refine ⟨(List.insertionSort r l₂).takeWhile (fun b => decide (¬ r x b)),
              (List.insertionSort r l₂).dropWhile (fun b => decide (¬ r x b)), ?_, ?_⟩
      · show List.insertionSort r (x :: l₂) = _
        rw [List.insertionSort, List.orderedInsert_eq_take_drop]
      · exact (List.takeWhile_append_dropWhile ..).symm
  | y :: l₁, l₂ => by
      obtain ⟨t₁, t₂, h1, h2⟩ := insertionSort_middle x l₁ l₂
      have hs : List.Sorted r (t₁ ++ x :: t₂) := h1 ▸ List.sorted_insertionSort r _
      obtain ⟨u₁, u₂, g1, g2⟩ := orderedInsert_middle r y x t₁ t₂ hs
      refine ⟨u₁, u₂, ?_, ?_⟩
      · rw [List.cons_append, List.insertionSort, h1]
        exact g1
      · rw [List.cons_append, List.insertionSort, h2]
        exact g2

theorem filterMap_insertionSort_middle [IsTrans α r] [IsTotal α r]
    (p : α → Option β) (x : α) (hx : p x = none) (l₁ l₂ : List α) :
    (List.insertionSort r (l₁ ++ x :: l₂)).filterMap p =
      (List.insertionSort r (l₁ ++ l₂)).filterMap p := by
  obtain ⟨t₁, t₂, h1, h2⟩ := insertionSort_middle r x l₁ l₂
  rw [h1, h2]
  simp [List.filterMap_append, List.filterMap_cons, hx]

end SortHelpers

/-- A file whose per-file step yields `none` (skipped path, read/parse
failure, or unrecognized root) can be dropped from the directory listing
without changing the Context. -/
theorem load_context_middle_none (dir : String) (f : JFile)
    (hf : processPath dir f = none) (l₁ l₂ : List JFile) :
    load_context dir (l₁ ++ f :: l₂) = load_context dir (l₁ ++ l₂) := by
  unfold load_context json_paths
  rw [List.filter_append, List.filter_append]
  by_cases h : globMatchJson f.name
  · have hcons : List.filter (fun g => globMatchJson g.name) (f :: l₂)
        = f :: List.filter (fun g => globMatchJson g.name) l₂ := by
      simp [List.filter_cons, h]
    rw [hcons]
    exact congrArg _
      (filterMap_insertionSort_middle (fileLe dir) (processPath dir) f hf _ _)
  · have hcons : List.filter (fun g => globMatchJson g.name) (f :: l₂)
        = List.filter (fun g => globMatchJson g.name) l₂ := by
      simp [List.filter_cons, h]
    rw [hcons]

/-- If every file of the directory fails to read or parse, the Context is
the empty string. -/
theorem load_context_all_error (dir : String) (files : List JFile)
    (h : ∀ f ∈ files, ∃ e, f.content = Except.error e) :
    load_context dir files = "" := by
  unfold load_context
  have hnone : ∀ f ∈ json_paths dir files, processPath dir f = none := by
    intro f hf
    have hmem : f ∈ files := by
      have hmemf :=
        (List.perm_insertionSort (fileLe dir)
          (files.filter (fun g => globMatchJson g.name))).mem_iff.mp hf
      exact (List.mem_filter.mp hmemf).1
    obtain ⟨e, he⟩ := h f hmem
    simp [processPath, he]
  rw [List.filterMap_eq_nil_iff.mpr hnone]
  rfl

/-- The spec's notion of "concatenation joined with exactly one blank-line
separator", written as direct recursion on the block list. -/
def blankJoin : List String → String
  | [] => ""
  | [b] => b
  | b :: bs => b ++ "\n\n" ++ blankJoin bs

/-- Merging an accumulated prefix into the head block of `blankJoin`. -/
theorem blankJoin_merge (b a : String) (as : List String) :
    blankJoin ((b ++ "\n\n" ++ a) :: as) = blankJoin (b :: a :: as) := by
  cases as with
  | nil => rfl
  | cons a2 as2 =>
      show b ++ "\n\n" ++ a ++ "\n\n" ++ blankJoin (a2 :: as2)
          = b ++ "\n\n" ++ (a ++ "\n\n" ++ blankJoin (a2 :: as2))
      simp [String.append_assoc]

/-- `String.intercalate "\n\n"` agrees with `blankJoin`. -/
theorem intercalate_blank_eq_blankJoin (l : List String) :
    String.intercalate "\n\n" l = blankJoin l := by
  cases l with
  | nil => rfl
  | cons b bs =>
      show String.intercalate.go b "\n\n" bs = blankJoin (b :: bs)
      induction bs generalizing b with
      | nil => rfl
      | cons a as ih =>
          rw [String.intercalate.go, ih, blankJoin_merge]

/-!
## Claims
-/

/-- C1: building the Context never throws: a per-file read or parse failure
(an `Except.error` content) yields an empty contribution for that file while
every other file still contributes — removing the failing file from the
directory leaves the Context unchanged — and in the worst case of every file
failing the result is the empty Context string.  (Totality and the absence
of escaping exceptions are inherent in the Lean model; logging is
observational only.) -/
theorem C1_per_file_failure_never_aborts :
    (∀ (dir name e : String) (l₁ l₂ : List JFile),
        load_context dir (l₁ ++ ⟨name, Except.error e⟩ :: l₂) =
          load_context dir (l₁ ++ l₂))
    ∧ (∀ (dir : String) (files : List JFile),
        (∀ f ∈ files, ∃ e, f.content = Except.error e) →
          load_context dir files = "") := by
  constructor
  · intro dir name e l₁ l₂
    exact load_context_middle_none dir ⟨name, Except.error e⟩ (by simp [processPath]) l₁ l₂
  · exact load_context_all_error

/-- Witness for C1 at concrete inputs. -/
theorem C1_witness :
    load_context "/data"
        ([⟨"b.json", Except.ok (Json.arr [])⟩] ++ ⟨"a.json", Except.error "boom"⟩ :: [])
      = load_context "/data" ([⟨"b.json", Except.ok (Json.arr [])⟩] ++ [])
    ∧ load_context "/data" [⟨"c.json", Except.error "bad"⟩] = "" := by
  refine ⟨C1_per_file_failure_never_aborts.1 "/data" "a.json" "boom" _ _,
          C1_per_file_failure_never_aborts.2 "/data" _ ?_⟩
  intro f hf
  rw [List.mem_singleton] at hf
  subst hf
  exact ⟨"bad", rfl⟩

/-- C2 counterexample: the claim says a file whose rendering is the empty
string does not appear in the Context and contributes no separator.  But a
recognized survey file whose `survey_summary` value is not a mapping renders
as `""` (the `.items()` call raises and the handler returns `""`), and that
empty block IS appended to `parts`, so the join gains a trailing `"\n\n"`
separator: the Context is not the join of only the non-empty blocks. -/
theorem C2_counterexample :
    processPath "/data" ⟨"b.json", Except.ok (Json.obj [("survey_summary", Json.num 5)])⟩
      = some ""
    ∧ load_context "/data"
        [⟨"a.json", Except.ok (Json.arr [Json.obj [("speaker", Json.str "A")]])⟩,
         ⟨"b.json", Except.ok (Json.obj [("survey_summary", Json.num 5)])⟩]
      = "=== Interview File: a.json ===\n\nA:\nQ: \nA: \n\n"
    ∧ load_context "/data"
        [⟨"a.json", Except.ok (Json.arr [Json.obj [("speaker", Json.str "A")]])⟩,
         ⟨"b.json", Except.ok (Json.obj [("survey_summary", Json.num 5)])⟩]
      ≠ "=== Interview File: a.json ===\n\nA:\nQ: \nA: " := by
  refine ⟨rfl, rfl, ?_⟩
  decide

/-- C2 amended: the Context equals the blank-line join (exactly one `"\n\n"`
between consecutive blocks) of ALL rendered blocks of the recognized files
in discovery order, where a recognized file whose rendering fails renders as
the empty string and still occupies a join position (contributing its
separators); only unrecognized, excluded or unparsable files contribute no
block at all. -/
theorem C2_blocks_joined_with_blank_lines :
    (∀ (dir : String) (files : List JFile),
        load_context dir files =
          blankJoin ((json_paths dir files).filterMap (processPath dir)))
    ∧ (json_paths "/data"
        [⟨"a.json", Except.ok (Json.arr [Json.obj [("speaker", Json.str "A")]])⟩,
         ⟨"b.json", Except.ok (Json.obj [("survey_summary", Json.num 5)])⟩]).filterMap
          (processPath "/data")
      = ["=== Interview File: a.json ===\n\nA:\nQ: \nA: ", ""] := by
  constructor
  · intro dir files
    exact intercalate_blank_eq_blankJoin _
  · rfl

/-- C3 counterexample: the claim says discovery excludes exactly the files
whose NAME contains `package` or `lock`, and lists every other `.json` file.
But the source tests the substrings on the FULL PATH, so a corpus directory
whose own path contains `lock` excludes a file named `a.json` even though
its name contains neither substring — while the same file in a clean
directory does appear. -/
theorem C3_counterexample :
    globMatchJson "a.json" = true
    ∧ containsSub "a.json" "package" = false
    ∧ containsSub "a.json" "lock" = false
    ∧ load_context "/data/lock" [⟨"a.json", Except.ok (Json.arr [])⟩] = ""
    ∧ load_context "/data" [⟨"a.json", Except.ok (Json.arr [])⟩]
        = "=== Interview File: a.json ===" := by
  exact ⟨rfl, by decide, by decide, rfl, rfl⟩

/-- C3 amended: discovery lists exactly the files directly in the configured
root (non-recursive) whose name matches the glob pattern `*.json` — it ends
with `.json` and, by glob's hidden-file rule, does not begin with a dot —
sorted lexicographically by full path, and the exclusion applies to the FULL
joined path (directory + `"/"` + name), case-sensitively: a file
participates in the Context exactly when its name matches the glob pattern
and its full path contains neither `package` nor `lock`; any file whose full
path contains one of the substrings — in particular `package-lock.json` —
contributes nothing regardless of its JSON shape. -/
theorem C3_discovery_characterization :
    (∀ (dir : String) (files : List JFile),
        (json_paths dir files).Sorted (fileLe dir))
    ∧ (∀ (dir : String) (files : List JFile) (f : JFile),
        (f ∈ json_paths dir files ∧ skipFile (fullPath dir f.name) = false) ↔
          (f ∈ files ∧ globMatchJson f.name = true
            ∧ containsSub (fullPath dir f.name) "package" = false
            ∧ containsSub (fullPath dir f.name) "lock" = false))
    ∧ (∀ (dir : String) (f : JFile) (l₁ l₂ : List JFile),
        skipFile (fullPath dir f.name) = true →
          load_context dir (l₁ ++ f :: l₂) = load_context dir (l₁ ++ l₂)) := by
  refine ⟨?_, ?_, ?_⟩
  · intro dir files
    exact List.sorted_insertionSort (fileLe dir) _
  · intro dir files f
    unfold json_paths skipFile
    rw [(List.perm_insertionSort (fileLe dir)
          (files.filter (fun g => globMatchJson g.name))).mem_iff]
    rw [List.mem_filter]
    constructor
    · rintro ⟨⟨hmem, hjson⟩, hskip⟩
      rw [Bool.or_eq_false_iff] at hskip
      exact ⟨hmem, hjson, hskip.1, hskip.2⟩
    · rintro ⟨hmem, hjson, hp, hl⟩
      exact ⟨⟨hmem, hjson⟩, by rw [hp, hl]; rfl⟩
  · intro dir f l₁ l₂ hskip
    refine load_context_middle_none dir f ?_ l₁ l₂
    simp [processPath, hskip]

/-- Witness for C3's amended characterization at concrete inputs: the iff
for `package-lock.json` (excluded despite an interview shape), the
Context-level irrelevance of that file, and glob's hidden-file rule (a
leading-dot `.hidden.json` is never discovered, so it contributes
nothing). -/
theorem C3_witness :
    ¬ (⟨"package-lock.json", Except.ok (Json.arr [Json.obj []])⟩
        ∈ json_paths "/data" [⟨"package-lock.json", Except.ok (Json.arr [Json.obj []])⟩]
      ∧ skipFile (fullPath "/data" "package-lock.json") = false)
    ∧ load_context "/data"
        ([⟨"a.json", Except.ok (Json.arr [])⟩]
          ++ ⟨"package-lock.json", Except.ok (Json.arr [Json.obj []])⟩ :: [])
      = load_context "/data" ([⟨"a.json", Except.ok (Json.arr [])⟩] ++ [])
    ∧ globMatchJson ".hidden.json" = false
    ∧ json_paths "/data" [⟨".hidden.json", Except.ok (Json.arr [Json.obj []])⟩] = []
    ∧ load_context "/data" [⟨".hidden.json", Except.ok (Json.arr [Json.obj []])⟩] = "" := by
  refine ⟨?_, ?_, by decide, rfl, rfl⟩
  · intro h
    have h2 := (C3_discovery_characterization.2.1 "/data"
      [⟨"package-lock.json", Except.ok (Json.arr [Json.obj []])⟩]
      ⟨"package-lock.json", Except.ok (Json.arr [Json.obj []])⟩).mp h
    have : containsSub (fullPath "/data" "package-lock.json") "lock" = false := h2.2.2.2
    revert this
    decide
  · exact C3_discovery_characterization.2.2 "/data"
      ⟨"package-lock.json", Except.ok (Json.arr [Json.obj []])⟩ _ _ (by decide)


/-- C4: for a parsed file, classification is decided by the root value's
shape in source order: a list renders as an interview transcript; otherwise
an object containing key `survey_summary` or key `free_text_insights`
renders as a survey; any other root (an object with neither key, or a
string, number, boolean, or null) contributes nothing to the Context and is
not an error (removing such a file leaves the Context unchanged). -/
theorem C4_classification_by_root_shape :
    (∀ (dir name : String) (entries : List Json),
        skipFile (fullPath dir name) = false →
          processPath dir ⟨name, Except.ok (Json.arr entries)⟩ =
            some (load_and_parse_json (fullPath dir name) entries))
    ∧ (∀ (dir name : String) (fields : List (String × Json)),
        skipFile (fullPath dir name) = false →
          ((jlookup fields "survey_summary").isSome = true
            ∨ (jlookup fields "free_text_insights").isSome = true) →
          processPath dir ⟨name, Except.ok (Json.obj fields)⟩ =
            some (load_survey_json (fullPath dir name) fields))
    ∧ (∀ (dir name : String) (data : Json),
        (match data with
          | Json.obj fields =>
              jlookup fields "survey_summary" = none
                ∧ jlookup fields "free_text_insights" = none
          | Json.arr _ => False
          | _ => True) →
          processPath dir ⟨name, Except.ok data⟩ = none)
    ∧ (∀ (dir : String) (f : JFile) (l₁ l₂ : List JFile),
        processPath dir f = none →
          load_context dir (l₁ ++ f :: l₂) = load_context dir (l₁ ++ l₂)) := by
  refine ⟨?_, ?_, ?_, ?_⟩
  · intro dir name entries hskip
    simp [processPath, hskip]
  · intro dir name fields hskip hsome
    have hcond : ((jlookup fields "survey_summary").isSome
        || (jlookup fields "free_text_insights").isSome) = true := by
      rcases hsome with h | h <;> simp [h]
    simp [processPath, hskip, hcond]
  · intro dir name data hshape
    cases data with
    | obj fields => simp [processPath, hshape.1, hshape.2]
    | arr entries => exact hshape.elim
    | null => simp [processPath]
    | bool b => simp [processPath]
    | num n => simp [processPath]
    | str s => simp [processPath]
  · intro dir f l₁ l₂ hf
    exact load_context_middle_none dir f hf l₁ l₂

/-- Witness for C4 at concrete inputs. -/
theorem C4_witness :
    processPath "/data" ⟨"a.json", Except.ok (Json.arr [])⟩
      = some (load_and_parse_json (fullPath "/data" "a.json") [])
    ∧ processPath "/data" ⟨"s.json", Except.ok (Json.obj [("survey_summary", Json.obj [])])⟩
      = some (load_survey_json (fullPath "/data" "s.json") [("survey_summary", Json.obj [])])
    ∧ processPath "/data" ⟨"u.json", Except.ok (Json.str "hello")⟩ = none
    ∧ load_context "/data"
        ([] ++ ⟨"u.json", Except.ok (Json.str "hello")⟩ :: [⟨"a.json", Except.ok (Json.arr [])⟩])
      = load_context "/data" ([] ++ [⟨"a.json", Except.ok (Json.arr [])⟩]) :=
  ⟨C4_classification_by_root_shape.1 "/data" "a.json" [] (by decide),
   C4_classification_by_root_shape.2.1 "/data" "s.json" _ (by decide) (Or.inl (by decide)),
   C4_classification_by_root_shape.2.2.1 "/data" "u.json" (Json.str "hello") trivial,
   C4_classification_by_root_shape.2.2.2 "/data" ⟨"u.json", Except.ok (Json.str "hello")⟩
     [] _ (by decide)⟩

/-- The entry step of the interview renderer, written the way the spec
phrases it: a blank line followed by the three record lines, joined by
newlines. -/
theorem interviewPart_obj (kvs : List (String × Json)) :
    interviewPart (Json.obj kvs) = some (String.intercalate "\n"
      ["",
       (match jlookup kvs "speaker" with | some v => pyStr v | none => "Unknown") ++ ":",
       "Q: " ++ (match jlookup kvs "question" with | some v => pyStr v | none => ""),
       "A: " ++ (match jlookup kvs "answer" with | some v => pyStr v | none => "")]) := by
  rw [interviewPart]
  congr 1
  apply String.ext
  simp [String.intercalate, String.intercalate.go]

/-- C5: interview rendering emits the header line
`=== Interview File: <basename> ===` and then, for each element that is a
keyed mapping, a blank line followed by `<speaker>:`, `Q: <question>`,
`A: <answer>` joined by newlines, substituting `"Unknown"` for a missing
speaker and `""` for a missing question or answer, silently skipping
non-mapping elements and preserving order. -/
theorem C5_interview_rendering :
    ∀ (path : String) (entries : List Json),
      load_and_parse_json path entries =
        String.intercalate "\n"
          (("=== Interview File: " ++ basename path ++ " ===") ::
            entries.filterMap (fun e =>
              match e with
              | Json.obj kvs =>
                  some (String.intercalate "\n"
                    ["",
                     (match jlookup kvs "speaker" with
                       | some v => pyStr v | none => "Unknown") ++ ":",
                     "Q: " ++ (match jlookup kvs "question" with
                       | some v => pyStr v | none => ""),
                     "A: " ++ (match jlookup kvs "answer" with
                       | some v => pyStr v | none => "")])
              | _ => none)) := by
  intro path entries
  have hfn : interviewPart = (fun e =>
      match e with
      | Json.obj kvs =>
          some (String.intercalate "\n"
            ["",
             (match jlookup kvs "speaker" with
               | some v => pyStr v | none => "Unknown") ++ ":",
             "Q: " ++ (match jlookup kvs "question" with
               | some v => pyStr v | none => ""),
             "A: " ++ (match jlookup kvs "answer" with
               | some v => pyStr v | none => "")])
      | _ => none) := by
    funext e
    cases e
    case obj kvs => exact interviewPart_obj kvs
    all_goals rfl
  rw [load_and_parse_json, hfn]

/-- The survey-summary section loop, as a flat map. -/
theorem surveySummaryParts_eq (secs : List (String × Json)) :
    surveySummaryParts secs =
      (secs.map (fun kv =>
        ["\n[" ++ strToUpper kv.1 ++ "]", jsonDumpsIndent2 kv.2])).flatten := by
  induction secs with
  | nil => rfl
  | cons kv rest ih =>
      cases kv
      rw [surveySummaryParts, ih]
      rfl

/-- The free-text-insights loop, as a map. -/
theorem freeTextParts_eq (qs : List (String × Json)) :
    freeTextParts qs =
      qs.map (fun kv => "\nQ: " ++ kv.1 ++ "\nSummary: " ++ pyStr kv.2) := by
  induction qs with
  | nil => rfl
  | cons kv rest ih =>
      cases kv
      rw [freeTextParts, ih]
      rfl

/-- C6: survey rendering emits the header
`=== Survey Analytics File: <basename> ===`; then, if `survey_summary` is
present (with a mapping value), the `--- SURVEY SUMMARY ---` marker followed,
for each section in key order, by `[<SECTION-UPPERCASED>]` and the indent-2
pretty-printed serialization of the section's value; then, if
`free_text_insights` is present (with a mapping value), the
`--- FREE TEXT INSIGHTS ---` marker followed by `Q: <question>` and
`Summary: <value>` per question in key order; all joined with newlines, the
survey-summary part always preceding the free-text part. -/
theorem C6_survey_rendering :
    ∀ (path : String) (fields : List (String × Json))
      (ss fts : Option (List (String × Json))),
      jlookup fields "survey_summary" = ss.map Json.obj →
      jlookup fields "free_text_insights" = fts.map Json.obj →
      load_survey_json path fields =
        String.intercalate "\n"
          (("=== Survey Analytics File: " ++ basename path ++ " ===") ::
            ((match ss with
              | none => []
              | some secs =>
                  "\n--- SURVEY SUMMARY ---" ::
                    (secs.map (fun kv =>
                      ["\n[" ++ strToUpper kv.1 ++ "]", jsonDumpsIndent2 kv.2])).flatten)
             ++ (match fts with
              | none => []
              | some qs =>
                  "\n--- FREE TEXT INSIGHTS ---" ::
                    qs.map (fun kv => "\nQ: " ++ kv.1 ++ "\nSummary: " ++ pyStr kv.2)))) := by
  intro path fields ss fts hss hfts
  rw [load_survey_json, hss, hfts]
  cases ss <;> cases fts <;>
    simp [Option.map, surveySummaryParts_eq, freeTextParts_eq]

/-- Witness for C6 at a concrete input. -/
theorem C6_witness :
    load_survey_json "/data/survey.json"
      [("survey_summary", Json.obj [("age", Json.obj [("18-25", Json.num 10)])]),
       ("free_text_insights", Json.obj [("Why?", Json.str "Vibes")])] =
      String.intercalate "\n"
        (("=== Survey Analytics File: " ++ basename "/data/survey.json" ++ " ===") ::
          ((match some [("age", Json.obj [("18-25", Json.num 10)])] with
            | none => ([] : List String)
            | some secs =>
                "\n--- SURVEY SUMMARY ---" ::
                  (secs.map (fun kv =>
                    ["\n[" ++ strToUpper kv.1 ++ "]", jsonDumpsIndent2 kv.2])).flatten)
           ++ (match some [("Why?", Json.str "Vibes")] with
            | none => ([] : List String)
            | some qs =>
                "\n--- FREE TEXT INSIGHTS ---" ::
                  qs.map (fun kv => "\nQ: " ++ kv.1 ++ "\nSummary: " ++ pyStr kv.2)))) :=
  C6_survey_rendering "/data/survey.json" _
    (some [("age", Json.obj [("18-25", Json.num 10)])])
    (some [("Why?", Json.str "Vibes")]) rfl rfl

/-- C7: the end-to-end example of the spec: a directory with exactly
`interview1.json` (one record) and `survey.json` (one survey summary
section) produces, in filename order, the interview block and then the
survey block with the indent-2 pretty-printing of the section value. -/
theorem C7_end_to_end_example :
    load_context "/data"
      [⟨"interview1.json", Except.ok (Json.arr [Json.obj
          [("speaker", Json.str "A"), ("question", Json.str "Why coffee?"),
           ("answer", Json.str "Passion.")]])⟩,
       ⟨"survey.json", Except.ok (Json.obj [("survey_summary",
          Json.obj [("age", Json.obj [("18-25", Json.num 10)])])])⟩]
      = "=== Interview File: interview1.json ===\n\nA:\nQ: Why coffee?\nA: Passion."
        ++ "\n\n"
        ++ "=== Survey Analytics File: survey.json ===\n\n--- SURVEY SUMMARY ---\n\n[AGE]\n\x7b\n  \"18-25\": 10\n\x7d" := by
  rfl

/-- C8: every invocation of the chat route returns a JSON body containing
either a `"response"` string field (with status 200) or an `"error"` string
field with a non-2xx status (400 or 500); in particular a dict body without
a `message` field yields a 400 error, a completion-service failure yields a
500 error, and a missing API client yields a 500 error.  (The model is a
total function, so no exception escapes.) -/
theorem C8_chat_response_shape :
    (∀ (client : Bool) (reqJson : Except String Json)
        (complete : Json → Except String String),
        (∃ s, chat client reqJson complete = ⟨200, [("response", Json.str s)]⟩)
        ∨ (∃ s st, chat client reqJson complete = ⟨st, [("error", Json.str s)]⟩
            ∧ (st = 400 ∨ st = 500)))
    ∧ (∀ (reqJson : Except String Json) (complete : Json → Except String String),
        chat false reqJson complete =
          ⟨500, [("error", Json.str "Backend Configuration Error: Google API Key is missing or invalid on the server.")]⟩)
    ∧ (∀ (kvs : List (String × Json)) (complete : Json → Except String String),
        jlookup kvs "message" = none →
          chat true (Except.ok (Json.obj kvs)) complete =
            ⟨400, [("error", Json.str "No message provided")]⟩)
    ∧ (∀ (kvs : List (String × Json)) (m : Json) (e : String)
        (complete : Json → Except String String),
        jlookup kvs "message" = some m → truthy m = true →
        complete m = Except.error e →
          chat true (Except.ok (Json.obj kvs)) complete =
            ⟨500, [("error", Json.str e)]⟩) := by
  refine ⟨?_, ?_, ?_, ?_⟩
  · intro client reqJson complete
    unfold chat
    by_cases hc : client = false
    · rw [if_pos hc]
      exact Or.inr ⟨_, 500, rfl, Or.inr rfl⟩
    · rw [if_neg hc]
      cases reqJson with
      | error e => exact Or.inr ⟨e, 500, rfl, Or.inr rfl⟩
      | ok user_data =>
          cases user_data with
          | obj kvs =>
              dsimp only
              cases hm : jlookup kvs "message" with
              | none => exact Or.inr ⟨_, 400, rfl, Or.inl rfl⟩
              | some q =>
                  dsimp only
                  by_cases ht : truthy q = false
                  · rw [if_pos ht]
                    exact Or.inr ⟨_, 400, rfl, Or.inl rfl⟩
                  · rw [if_neg ht]
                    cases hcq : complete q with
                    | ok t => exact Or.inl ⟨t, rfl⟩
                    | error e => exact Or.inr ⟨e, 500, rfl, Or.inr rfl⟩
          | null => exact Or.inr ⟨_, 500, rfl, Or.inr rfl⟩
          | bool b => exact Or.inr ⟨_, 500, rfl, Or.inr rfl⟩
          | num n => exact Or.inr ⟨_, 500, rfl, Or.inr rfl⟩
          | str s => exact Or.inr ⟨_, 500, rfl, Or.inr rfl⟩
          | arr xs => exact Or.inr ⟨_, 500, rfl, Or.inr rfl⟩
  · intro reqJson complete
    rfl
  · intro kvs complete hm
    unfold chat
    rw [if_neg (by decide : ¬ (true = false))]
    dsimp only
    rw [hm]
  · intro kvs m e complete hm ht hce
    unfold chat
    rw [if_neg (by decide : ¬ (true = false))]
    dsimp only
    rw [hm]
    dsimp only
    rw [if_neg (by rw [ht]; decide), hce]

/-- Witness for C8 at concrete inputs. -/
theorem C8_witness :
    chat true (Except.ok (Json.obj [("other", Json.num 1)])) (fun _ => Except.ok "hi")
      = ⟨400, [("error", Json.str "No message provided")]⟩
    ∧ chat true (Except.ok (Json.obj [("message", Json.str "hello")]))
        (fun _ => Except.error "service down")
      = ⟨500, [("error", Json.str "service down")]⟩ :=
  ⟨C8_chat_response_shape.2.2.1 [("other", Json.num 1)] _ rfl,
   C8_chat_response_shape.2.2.2 [("message", Json.str "hello")] (Json.str "hello")
     "service down" _ rfl rfl rfl⟩

/-- C9: the interview-rendering defaults apply only to absent keys: a
`speaker` key present with JSON null renders the line `None:` (CPython
`str(None)`) rather than `Unknown:`, and a present-but-null `question` or
`answer` renders as the text `None` rather than the empty string. -/
theorem C9_null_fields_render_as_None :
    (∀ kvs : List (String × Json),
        jlookup kvs "speaker" = some Json.null →
          interviewPart (Json.obj kvs) =
            some ("\nNone:\nQ: " ++ ((jlookup kvs "question").elim "" pyStr)
              ++ "\nA: " ++ ((jlookup kvs "answer").elim "" pyStr)))
    ∧ (∀ kvs : List (String × Json),
        jlookup kvs "question" = some Json.null →
        jlookup kvs "answer" = some Json.null →
          interviewPart (Json.obj kvs) =
            some ("\n" ++ ((jlookup kvs "speaker").elim "Unknown" pyStr)
              ++ ":\nQ: None\nA: None"))
    ∧ pyStr Json.null = "None" ∧ pyStr Json.null ≠ "Unknown" := by
  refine ⟨?_, ?_, rfl, by decide⟩
  · intro kvs h
    rw [interviewPart_obj, h]
    congr 1
    cases hq : jlookup kvs "question" <;> cases ha : jlookup kvs "answer" <;>
      (apply String.ext;
       simp [String.intercalate, String.intercalate.go, Option.elim, pyStr, pyRepr])
  · intro kvs hq ha
    rw [interviewPart_obj, hq, ha]
    congr 1
    cases hs : jlookup kvs "speaker" <;>
      (apply String.ext;
       simp [String.intercalate, String.intercalate.go, Option.elim, pyStr, pyRepr])

/-- Witness for C9 at concrete inputs. -/
theorem C9_witness :
    interviewPart (Json.obj [("speaker", Json.null)])
      = some ("\nNone:\nQ: " ++ ((jlookup [("speaker", Json.null)] "question").elim "" pyStr)
          ++ "\nA: " ++ ((jlookup [("speaker", Json.null)] "answer").elim "" pyStr))
    ∧ interviewPart (Json.obj [("question", Json.null), ("answer", Json.null)])
      = some ("\n" ++
          ((jlookup [("question", Json.null), ("answer", Json.null)] "speaker").elim
            "Unknown" pyStr) ++ ":\nQ: None\nA: None") :=
  ⟨C9_null_fields_render_as_None.1 _ rfl,
   C9_null_fields_render_as_None.2.1 _ rfl rfl⟩

/-- C10: a chat request whose body has a `message` field with a falsy value
(the empty string, null, 0, false, an empty list or dict) is rejected
exactly like a missing field — status 400 with body
`{"error": "No message provided"}` — and the completion service is never
called: the result does not depend on the `complete` function at all. -/
theorem C10_falsy_message_rejected :
    (∀ (kvs : List (String × Json)) (m : Json)
        (complete : Json → Except String String),
        jlookup kvs "message" = some m → truthy m = false →
          chat true (Except.ok (Json.obj kvs)) complete =
            ⟨400, [("error", Json.str "No message provided")]⟩)
    ∧ (∀ (kvs : List (String × Json)) (complete : Json → Except String String),
        jlookup kvs "message" = none →
          chat true (Except.ok (Json.obj kvs)) complete =
            ⟨400, [("error", Json.str "No message provided")]⟩)
    ∧ (∀ (kvs : List (String × Json)) (m : Json)
        (c₁ c₂ : Json → Except String String),
        jlookup kvs "message" = some m → truthy m = false →
          chat true (Except.ok (Json.obj kvs)) c₁ =
            chat true (Except.ok (Json.obj kvs)) c₂)
    ∧ truthy (Json.str "") = false ∧ truthy Json.null = false := by
  have hrej : ∀ (kvs : List (String × Json)) (m : Json)
      (complete : Json → Except String String),
      jlookup kvs "message" = some m → truthy m = false →
        chat true (Except.ok (Json.obj kvs)) complete =
          ⟨400, [("error", Json.str "No message provided")]⟩ := by
    intro kvs m complete hm ht
    unfold chat
    rw [if_neg (by decide : ¬ (true = false))]
    dsimp only
    rw [hm]
    dsimp only
    rw [if_pos ht]
  refine ⟨hrej, ?_, ?_, rfl, rfl⟩
  · intro kvs complete hm
    unfold chat
    rw [if_neg (by decide : ¬ (true = false))]
    dsimp only
    rw [hm]
  · intro kvs m c₁ c₂ hm ht
    rw [hrej kvs m c₁ hm ht, hrej kvs m c₂ hm ht]

/-- Witness for C10 at concrete inputs. -/
theorem C10_witness :
    chat true (Except.ok (Json.obj [("message", Json.str "")])) (fun _ => Except.ok "hi")
      = ⟨400, [("error", Json.str "No message provided")]⟩
    ∧ chat true (Except.ok (Json.obj [("message", Json.null)])) (fun _ => Except.ok "hi")
      = ⟨400, [("error", Json.str "No message provided")]⟩
    ∧ chat true (Except.ok (Json.obj [("message", Json.str "")])) (fun _ => Except.ok "A")
      = chat true (Except.ok (Json.obj [("message", Json.str "")])) (fun _ => Except.error "B") :=
  ⟨C10_falsy_message_rejected.1 _ (Json.str "") _ rfl rfl,
   C10_falsy_message_rejected.1 _ Json.null _ rfl rfl,
   C10_falsy_message_rejected.2.2.1 _ (Json.str "") _ _ rfl rfl⟩

end CafeRag
